import Mathlib

/-!
Verification of the issue-submission workflow engine of the civic-ai
repository (src/src/components/ReportIssue.tsx), as a shallow embedding.

The React component's `useState` hooks become the fields of
`ReportIssueState`; each event handler becomes a pure function on that
state; the three asynchronous remote calls (classification, geocoding,
submission) become pending-request lists in a `World`, with an inductive
`Step` relation whose constructors are exactly the UI events the rendered
page permits (a button's `disabled` attribute is a guard of the
corresponding constructor) and the arrival of responses (in any order, to
model the network).  Numbers that are JavaScript floats in the source are
embedded as rationals.
-/

namespace CivicAI

/-- Severity enum from the `AIAnalysis` interface: `'low' | 'medium' | 'high'`. -/
inductive Severity where
  | low
  | medium
  | high
deriving DecidableEq, Repr

/-- String value of a severity, as it appears in the TypeScript union type. -/
def Severity.toStr : Severity → String
  | .low => "low"
  | .medium => "medium"
  | .high => "high"

/-- `interface AIAnalysis { is_match: boolean; probability: number; severity?: ... }`
(ReportIssue.tsx lines 8-12).  `probability` is a JS number, embedded as ℚ. -/
structure AIAnalysis where
  is_match : Bool
  probability : ℚ
  severity : Option Severity
deriving DecidableEq, Repr

/-- A map coordinate pair `{ lat, lng }`. -/
structure Coords where
  lat : ℚ
  lng : ℚ
deriving DecidableEq, Repr

/-- Opaque image payload (a `File` in the source). -/
abbrev FileData := String

/-- The component state: one field per `useState` hook of `ReportIssue`
(lines 19-28).  `issueType` is kept as the raw string held by the DOM
`<select>`, since the source merely casts `e.target.value as IssueType`. -/
structure ReportIssueState where
  image : Option FileData
  previewUrl : Option String
  location : Option Coords
  address : String
  description : String
  issueType : String
  isAnalyzing : Bool
  showCamera : Bool
  aiAnalysis : Option AIAnalysis
  isSubmitting : Bool
deriving DecidableEq, Repr

/-- Initial state of the hooks (lines 19-28): everything empty,
`issueType` defaults to `'drainage'`, all flags false. -/
def initState : ReportIssueState :=
  { image := none
    previewUrl := none
    location := none
    address := ""
    description := ""
    issueType := "drainage"
    isAnalyzing := false
    showCamera := false
    aiAnalysis := none
    isSubmitting := false }

/-- The three `<option value>`s of the issue-type `<select>` (lines 202-204). -/
def optionValues : List String := ["drainage", "garbage_waste", "pothole"]

/-- A multipart form-data value: either a file or a string. -/
inductive FormValue where
  | file (f : FileData)
  | str (s : String)
deriving DecidableEq, Repr

/-- JS `Number.prototype.toString` on an embedded rational. -/
def numStr (q : ℚ) : String := toString q

/-- `aiAnalysis.severity || ''` (line 145): the severity string when present,
the empty string when the optional field is absent. -/
def sevStr : Option Severity → String
  | none => ""
  | some v => v.toStr

/-- The outbound submission record built by `handleSubmit` (lines 136-148):
`image`, `type`, `latitude`, `longitude`, `address`, `description`, then
`ai_probability` and `ai_severity` when `is_match`, else `ai_probability=0`. -/
def buildRecord (i : FileData) (ty : String) (l : Coords)
    (addr descr : String) (a : AIAnalysis) : List (String × FormValue) :=
  [("image", .file i),
   ("type", .str ty),
   ("latitude", .str (numStr l.lat)),
   ("longitude", .str (numStr l.lng)),
   ("address", .str addr),
   ("description", .str descr)] ++
  (if a.is_match then
    [("ai_probability", .str (numStr a.probability)),
     ("ai_severity", .str (sevStr a.severity))]
  else
    [("ai_probability", .str "0")])

/-- Which required field a refused submission complains about. -/
inductive MissingField where
  | image
  | location
  | classification
deriving DecidableEq, Repr

/-- Outcome of a `handleSubmit` invocation up to the remote call: either an
early return with a missing-field error, or the issuing of one request
carrying the built record. -/
inductive SubmitOutcome where
  | missing (f : MissingField)
  | send (r : List (String × FormValue))
deriving DecidableEq, Repr

/-- The validation-and-build prefix of `handleSubmit` (lines 120-148):
guards checked in source order (`!image`, `!location`, `!aiAnalysis`),
then the record is assembled from the current state. -/
def submitOutcome (s : ReportIssueState) : SubmitOutcome :=
  match s.image with
  | none => .missing .image
  | some i =>
    match s.location with
    | none => .missing .location
    | some l =>
      match s.aiAnalysis with
      | none => .missing .classification
      | some a => .send (buildRecord i s.issueType l s.address s.description a)

/-- The spec's stated priority order for the missing-field report:
image first, then location, then classification (spec §4.1 `submit()`).
Written from the spec's words, for comparison with `submitOutcome`. -/
def specPriorityMissing (s : ReportIssueState) : Option MissingField :=
  if s.image = none then some .image
  else if s.location = none then some .location
  else if s.aiAnalysis = none then some .classification
  else none

/-- `handleImageChange` (lines 62-69): store the chosen file, set a preview
URL, clear any prior analysis. -/
def handleImageChange (s : ReportIssueState) (f : FileData) (url : String) :
    ReportIssueState :=
  { s with image := some f, previewUrl := some url, aiAnalysis := none }

/-- First half of `capture` (lines 79-84), up to the `await`: show the
screenshot as preview and hide the camera. -/
def captureStart (s : ReportIssueState) (url : String) : ReportIssueState :=
  { s with previewUrl := some url, showCamera := false }

/-- Second half of `capture` (lines 85-89), after the screenshot bytes are
fetched: store the file and clear any prior analysis. -/
def captureFinish (s : ReportIssueState) (f : FileData) : ReportIssueState :=
  { s with image := some f, aiAnalysis := none }

/-- The issue-type `<select>`'s onChange (line 198): `setIssueType(e.target.value)`.
Note that it updates `issueType` only — `aiAnalysis` is left as it was. -/
def selectCategory (s : ReportIssueState) (v : String) : ReportIssueState :=
  { s with issueType := v }

/-- A pending classification request: the image and category sent to `/predict`. -/
structure ClassifyReq where
  image : FileData
  category : String
deriving DecidableEq, Repr

/-- Outcome of a `handleScan` invocation (lines 71-77): start a
classification request, or refuse with the combined toast error. -/
inductive ScanOutcome where
  | start (req : ClassifyReq)
  | refused
deriving DecidableEq, Repr

/-- `handleScan` (lines 71-77): `if (image && issueType)` call
`analyzeImage(image, issueType)`, else toast an error.  JS truthiness of
the `issueType` string is emptiness. -/
def handleScan (s : ReportIssueState) : ScanOutcome :=
  match s.image with
  | some i => if s.issueType ≠ "" then .start ⟨i, s.issueType⟩ else .refused
  | none => .refused

/-- Start of `analyzeImage` (line 31): `setIsAnalyzing(true)` before the call. -/
def analyzeStart (s : ReportIssueState) : ReportIssueState :=
  { s with isAnalyzing := true }

/-- Successful classification response (lines 41-42 and the `finally`):
store the verdict, drop the in-flight flag. -/
def classifyOk (s : ReportIssueState) (a : AIAnalysis) : ReportIssueState :=
  { s with aiAnalysis := some a, isAnalyzing := false }

/-- Failed classification call (lines 54-59): the catch toasts and the
`finally` drops the flag; the stored verdict is untouched. -/
def classifyFail (s : ReportIssueState) : ReportIssueState :=
  { s with isAnalyzing := false }

/-- `handleLocationSelect`'s synchronous prefix (line 97): store the
coordinates immediately, before the reverse-geocoding call. -/
def selectLocation (s : ReportIssueState) (c : Coords) : ReportIssueState :=
  { s with location := some c }

/-- Application of a geocoding response (lines 107-112):
`if (data && data.display_name) setAddress(data.display_name) else
setAddress('Address not found')`.  `displayName` is the response's
`display_name` field; JS truthiness makes an empty string count as absent.
Note the response is applied unconditionally — the current `location` is
not consulted. -/
def respAddress (displayName : Option String) : String :=
  match displayName with
  | some n => if n ≠ "" then n else "Address not found"
  | none => "Address not found"

def applyGeocodeResp (s : ReportIssueState) (displayName : Option String) :
    ReportIssueState :=
  { s with address := respAddress displayName }

/-- Geocoding network failure (lines 113-117): the catch toasts and sets
`address` to the empty string. -/
def geocodeFail (s : ReportIssueState) : ReportIssueState :=
  { s with address := "" }

/-- `setIsSubmitting(true)` (line 134), entered after the three guards pass. -/
def submitStart (s : ReportIssueState) : ReportIssueState :=
  { s with isSubmitting := true }

/-- End of `handleSubmit`'s remote call, success or failure alike: the
`finally` (line 169) drops the flag and nothing else changes (the
navigation on line 164 is commented out in the source). -/
def submitDone (s : ReportIssueState) : ReportIssueState :=
  { s with isSubmitting := false }

/-- A world: the component state plus the requests currently in flight to
each asynchronous boundary. `pendingCapture` holds screenshot data-URLs
awaiting their blob fetch inside `capture`. -/
structure World where
  ui : ReportIssueState
  pendingCapture : List String
  pendingClassify : List ClassifyReq
  pendingGeocode : List Coords
  pendingSubmit : List (List (String × FormValue))
deriving DecidableEq, Repr

/-- The world at mount: fresh state, nothing in flight. -/
def initWorld : World :=
  { ui := initState
    pendingCapture := []
    pendingClassify := []
    pendingGeocode := []
    pendingSubmit := [] }

def applyUpload (w : World) (f : FileData) (url : String) : World :=
  { w with ui := handleImageChange w.ui f url }

def applyToggleCamera (w : World) : World :=
  { w with ui := { w.ui with showCamera := !w.ui.showCamera } }

def applyCaptureStart (w : World) (url : String) : World :=
  { w with ui := captureStart w.ui url, pendingCapture := url :: w.pendingCapture }

def applyCaptureFinish (w : World) (i : ℕ) (f : FileData) : World :=
  { w with ui := captureFinish w.ui f, pendingCapture := w.pendingCapture.eraseIdx i }

def applyCategory (w : World) (v : String) : World :=
  { w with ui := selectCategory w.ui v }

def applyScan (w : World) (req : ClassifyReq) : World :=
  { w with ui := analyzeStart w.ui, pendingClassify := req :: w.pendingClassify }

def applyClassifyOk (w : World) (i : ℕ) (a : AIAnalysis) : World :=
  { w with ui := classifyOk w.ui a, pendingClassify := w.pendingClassify.eraseIdx i }

def applyClassifyFail (w : World) (i : ℕ) : World :=
  { w with ui := classifyFail w.ui, pendingClassify := w.pendingClassify.eraseIdx i }

def applyLocation (w : World) (c : Coords) : World :=
  { w with ui := selectLocation w.ui c, pendingGeocode := c :: w.pendingGeocode }

def applyGeocodeOk (w : World) (i : ℕ) (displayName : Option String) : World :=
  { w with ui := applyGeocodeResp w.ui displayName,
           pendingGeocode := w.pendingGeocode.eraseIdx i }

def applyGeocodeFail (w : World) (i : ℕ) : World :=
  { w with ui := geocodeFail w.ui, pendingGeocode := w.pendingGeocode.eraseIdx i }

def applySubmit (w : World) (r : List (String × FormValue)) : World :=
  { w with ui := submitStart w.ui, pendingSubmit := r :: w.pendingSubmit }

def applySubmitOk (w : World) (i : ℕ) : World :=
  { w with ui := submitDone w.ui, pendingSubmit := w.pendingSubmit.eraseIdx i }

def applySubmitFail (w : World) (i : ℕ) : World :=
  { w with ui := submitDone w.ui, pendingSubmit := w.pendingSubmit.eraseIdx i }

def applyDescription (w : World) (d : String) : World :=
  { w with ui := { w.ui with description := d } }

/-- One UI event or response arrival.  User events carry the guards of the
rendered page: a control that is `disabled` (or not rendered) cannot fire.
Response events remove an arbitrary pending request of their kind, so every
network interleaving is a trace of this relation. -/
inductive Step : World → World → Prop where
  | upload (w : World) (f : FileData) (url : String)
      (ha : w.ui.isAnalyzing = false) (hs : w.ui.isSubmitting = false) :
      Step w (applyUpload w f url)
  | toggleCamera (w : World)
      (ha : w.ui.isAnalyzing = false) (hs : w.ui.isSubmitting = false) :
      Step w (applyToggleCamera w)
  | captureStart (w : World) (url : String)
      (hc : w.ui.showCamera = true) :
      Step w (applyCaptureStart w url)
  | captureFinish (w : World) (i : ℕ) (f : FileData)
      (hi : i < w.pendingCapture.length) :
      Step w (applyCaptureFinish w i f)
  | category (w : World) (v : String)
      (hv : v ∈ optionValues) :
      Step w (applyCategory w v)
  | scan (w : World) (req : ClassifyReq)
      (ha : w.ui.isAnalyzing = false) (hs : w.ui.isSubmitting = false)
      (hp : w.ui.previewUrl.isSome) (hc : w.ui.showCamera = false)
      (hr : handleScan w.ui = .start req) :
      Step w (applyScan w req)
  | classifyOk (w : World) (i : ℕ) (a : AIAnalysis)
      (hi : i < w.pendingClassify.length) :
      Step w (applyClassifyOk w i a)
  | classifyFail (w : World) (i : ℕ)
      (hi : i < w.pendingClassify.length) :
      Step w (applyClassifyFail w i)
  | selectLoc (w : World) (c : Coords) :
      Step w (applyLocation w c)
  | geocodeOk (w : World) (i : ℕ) (displayName : Option String)
      (hi : i < w.pendingGeocode.length) :
      Step w (applyGeocodeOk w i displayName)
  | geocodeFail (w : World) (i : ℕ)
      (hi : i < w.pendingGeocode.length) :
      Step w (applyGeocodeFail w i)
  | submit (w : World) (r : List (String × FormValue))
      (hs : w.ui.isSubmitting = false)
      (hr : submitOutcome w.ui = .send r) :
      Step w (applySubmit w r)
  | submitOk (w : World) (i : ℕ)
      (hi : i < w.pendingSubmit.length) :
      Step w (applySubmitOk w i)
  | submitFail (w : World) (i : ℕ)
      (hi : i < w.pendingSubmit.length) :
      Step w (applySubmitFail w i)
  | setDescription (w : World) (d : String)
      (hs : w.ui.isSubmitting = false) :
      Step w (applyDescription w d)

/-- Worlds reachable from the mounted component by any interleaving of
events and response arrivals. -/
inductive Reachable : World → Prop where
  | init : Reachable initWorld
  | step {w w' : World} : Reachable w → Step w w' → Reachable w'

/-- There is a classification request in flight exactly while `isAnalyzing`
is set, and a submission request in flight exactly while `isSubmitting` is
set — each list length matches its flag. -/
def InFlightInv (w : World) : Prop :=
  w.pendingClassify.length = (if w.ui.isAnalyzing then 1 else 0) ∧
  w.pendingSubmit.length = (if w.ui.isSubmitting then 1 else 0)

/-- The selected issue type is always one of the three option values. -/
def CategoryInv (w : World) : Prop := w.ui.issueType ∈ optionValues

/-- Advisory tag of a stored verdict as rendered in the analysis panel
(lines 285-299): match, low-confidence, or no-match. -/
inductive ClassTag where
  | confirmedMatch
  | lowConfidence
  | noMatch
deriving DecidableEq, Repr

/-- The rendering policy of lines 285-299: `is_match` false shows the
no-match message; otherwise `probability >= 0.7` shows the confirmed
message and anything lower the low-confidence message. -/
def classifiedTag (a : AIAnalysis) : ClassTag :=
  if a.is_match then
    (if (0.7 : ℚ) ≤ a.probability then .confirmedMatch else .lowConfidence)
  else .noMatch

/-- A verdict used in the concrete traces below. -/
def c1Verdict : AIAnalysis := ⟨true, 0.9, some .high⟩

/-- Concrete trace: upload an image, scan it under category `drainage`,
receive a verdict, then switch the category to `pothole`. -/
def c1World : World :=
  applyCategory
    (applyClassifyOk
      (applyScan (applyUpload initWorld "img.jpg" "blob:1") ⟨"img.jpg", "drainage"⟩)
      0 c1Verdict)
    "pothole"

/-- A draft with an image and a verdict but no location. -/
def c3State : ReportIssueState :=
  { initState with image := some "img.jpg", aiAnalysis := some c1Verdict }

/-- A complete draft matching the spec's walk-through scenario. -/
def c4State : ReportIssueState :=
  { initState with
      image := some "img.jpg"
      location := some ⟨12.9, 77.6⟩
      address := "MG Road"
      issueType := "pothole"
      aiAnalysis := some ⟨true, 0.85, some .high⟩ }

def c5A : Coords := ⟨12.9, 77.6⟩

def c5B : Coords := ⟨13.1, 80.3⟩

/-- Concrete trace: select coordinates A then B; B's geocoding response
arrives first and then A's stale response arrives. -/
def c5World : World :=
  applyGeocodeOk
    (applyGeocodeOk (applyLocation (applyLocation initWorld c5A) c5B)
      0 (some "Beta Street"))
    0 (some "Alpha Street")

/-- A world holding a complete draft, ready to submit. -/
def c6World : World := { initWorld with ui := c4State }

/-- The record `handleSubmit` builds from `c4State`. -/
def c6Record : List (String × FormValue) :=
  buildRecord "img.jpg" "pothole" ⟨12.9, 77.6⟩ "MG Road" "" ⟨true, 0.85, some .high⟩

/-- Concrete trace: select a location, then the reverse-geocoding call
fails with a network error. -/
def c8World : World := applyGeocodeFail (applyLocation initWorld ⟨12.9, 77.6⟩) 0

/-- A state whose only populated requirement is the location. -/
def c8State : ReportIssueState := { initState with location := some ⟨1, 2⟩ }

theorem inFlightInv_init : InFlightInv initWorld := by
  constructor <;> rfl

theorem inFlightInv_step {w w' : World} (h : InFlightInv w) (st : Step w w') :
    InFlightInv w' := by
  obtain ⟨hc, hsub⟩ := h
  cases st with
  | upload f url ha hs => exact ⟨hc, hsub⟩
  | toggleCamera ha hs => exact ⟨hc, hsub⟩
  | captureStart url hcam => exact ⟨hc, hsub⟩
  | captureFinish i f hi => exact ⟨hc, hsub⟩
  | category v hv => exact ⟨hc, hsub⟩
  | scan req ha hs hp hcam hr =>
    refine ⟨?_, hsub⟩
    rw [ha] at hc
    simp [applyScan, analyzeStart, hc]
  | classifyOk i a hi =>
    have h1 : w.pendingClassify.length = 1 := by
      by_cases hA : w.ui.isAnalyzing
      · simpa [hA] using hc
      · rw [hc] at hi; simp [hA] at hi
    refine ⟨?_, hsub⟩
    simp [applyClassifyOk, classifyOk, List.length_eraseIdx_of_lt hi, h1]
  | classifyFail i hi =>
    have h1 : w.pendingClassify.length = 1 := by
      by_cases hA : w.ui.isAnalyzing
      · simpa [hA] using hc
      · rw [hc] at hi; simp [hA] at hi
    refine ⟨?_, hsub⟩
    simp [applyClassifyFail, classifyFail, List.length_eraseIdx_of_lt hi, h1]
  | selectLoc c => exact ⟨hc, hsub⟩
  | geocodeOk i dn hi => exact ⟨hc, hsub⟩
  | geocodeFail i hi => exact ⟨hc, hsub⟩
  | submit r hs hr =>
    refine ⟨hc, ?_⟩
    rw [hs] at hsub
    simp [applySubmit, submitStart, hsub]
  | submitOk i hi =>
    have h1 : w.pendingSubmit.length = 1 := by
      by_cases hS : w.ui.isSubmitting
      · simpa [hS] using hsub
      · rw [hsub] at hi; simp [hS] at hi
    refine ⟨hc, ?_⟩
    simp [applySubmitOk, submitDone, List.length_eraseIdx_of_lt hi, h1]
  | submitFail i hi =>
    have h1 : w.pendingSubmit.length = 1 := by
      by_cases hS : w.ui.isSubmitting
      · simpa [hS] using hsub
      · rw [hsub] at hi; simp [hS] at hi
    refine ⟨hc, ?_⟩
    simp [applySubmitFail, submitDone, List.length_eraseIdx_of_lt hi, h1]
  | setDescription d hs => exact ⟨hc, hsub⟩

theorem inFlightInv_reachable {w : World} (h : Reachable w) : InFlightInv w := by
  induction h with
  | init => exact inFlightInv_init
  | step _ st ih => exact inFlightInv_step ih st

theorem categoryInv_step {w w' : World} (h : CategoryInv w) (st : Step w w') :
    CategoryInv w' := by
  cases st with
  | upload f url ha hs => exact h
  | toggleCamera ha hs => exact h
  | captureStart url hcam => exact h
  | captureFinish i f hi => exact h
  | category v hv => exact hv
  | scan req ha hs hp hcam hr => exact h
  | classifyOk i a hi => exact h
  | classifyFail i hi => exact h
  | selectLoc c => exact h
  | geocodeOk i dn hi => exact h
  | geocodeFail i hi => exact h
  | submit r hs hr => exact h
  | submitOk i hi => exact h
  | submitFail i hi => exact h
  | setDescription d hs => exact h

theorem categoryInv_reachable {w : World} (h : Reachable w) : CategoryInv w := by
  induction h with
  | init => simp [CategoryInv, initWorld, initState, optionValues]
  | step _ st ih => exact categoryInv_step ih st

/-- C2: in every reachable world at most one classification request and at
most one submission request are in flight, and from any world whose
classification (resp. submission) flag is set, no permitted event grows the
corresponding in-flight list — a re-entrant scan or submit cannot fire
because its control is disabled, so no second call is ever issued. -/
theorem single_flight_C2 (w : World) (h : Reachable w) :
    w.pendingClassify.length ≤ 1 ∧ w.pendingSubmit.length ≤ 1 ∧
    (∀ w', w.ui.isAnalyzing = true → Step w w' →
      w'.pendingClassify.length ≤ w.pendingClassify.length) ∧
    (∀ w', w.ui.isSubmitting = true → Step w w' →
      w'.pendingSubmit.length ≤ w.pendingSubmit.length) := by
  obtain ⟨hc, hsub⟩ := inFlightInv_reachable h
  refine ⟨?_, ?_, ?_, ?_⟩
  · by_cases hA : w.ui.isAnalyzing <;> simp [hc, hA]
  · by_cases hS : w.ui.isSubmitting <;> simp [hsub, hS]
  · intro w' hA st
    cases st with
    | upload f url ha hs => exact le_rfl
    | toggleCamera ha hs => exact le_rfl
    | captureStart url hcam => exact le_rfl
    | captureFinish i f hi => exact le_rfl
    | category v hv => exact le_rfl
    | scan req ha hs hp hcam hr => rw [ha] at hA; cases hA
    | classifyOk i a hi =>
      simp only [applyClassifyOk, List.length_eraseIdx_of_lt hi]
      omega
    | classifyFail i hi =>
      simp only [applyClassifyFail, List.length_eraseIdx_of_lt hi]
      omega
    | selectLoc c => exact le_rfl
    | geocodeOk i dn hi => exact le_rfl
    | geocodeFail i hi => exact le_rfl
    | submit r hs hr => exact le_rfl
    | submitOk i hi => exact le_rfl
    | submitFail i hi => exact le_rfl
    | setDescription d hs => exact le_rfl
  · intro w' hS st
    cases st with
    | upload f url ha hs => exact le_rfl
    | toggleCamera ha hs => exact le_rfl
    | captureStart url hcam => exact le_rfl
    | captureFinish i f hi => exact le_rfl
    | category v hv => exact le_rfl
    | scan req ha hs hp hcam hr => exact le_rfl
    | classifyOk i a hi => exact le_rfl
    | classifyFail i hi => exact le_rfl
    | selectLoc c => exact le_rfl
    | geocodeOk i dn hi => exact le_rfl
    | geocodeFail i hi => exact le_rfl
    | submit r hs hr => rw [hs] at hS; cases hS
    | submitOk i hi =>
      simp only [applySubmitOk, List.length_eraseIdx_of_lt hi]
      omega
    | submitFail i hi =>
      simp only [applySubmitFail, List.length_eraseIdx_of_lt hi]
      omega
    | setDescription d hs => exact le_rfl

/-- Witness for C2 at the initial world. -/
theorem single_flight_C2_witness :
    initWorld.pendingClassify.length ≤ 1 ∧ initWorld.pendingSubmit.length ≤ 1 :=
  ⟨(single_flight_C2 initWorld Reachable.init).1,
   (single_flight_C2 initWorld Reachable.init).2.1⟩

/-- C9: in every reachable world the selected issue type is one of the
three option values, and `handleScan` refuses exactly when the image is
absent — the category can never be the reason a scan is refused. -/
theorem category_enum_scan_refusal_C9 (w : World) (h : Reachable w) :
    w.ui.issueType ∈ optionValues ∧
    (handleScan w.ui = .refused ↔ w.ui.image = none) := by
  have hmem := categoryInv_reachable h
  refine ⟨hmem, ?_⟩
  have hne : w.ui.issueType ≠ "" := by
    simp only [CategoryInv, optionValues, List.mem_cons, List.not_mem_nil,
      or_false] at hmem
    rcases hmem with h1 | h1 | h1 <;> simp [h1]
  cases himg : w.ui.image with
  | none => simp [handleScan, himg]
  | some i => simp [handleScan, himg, hne]

/-- Witness for C9 at the initial world. -/
theorem category_enum_scan_refusal_C9_witness :
    initWorld.ui.issueType ∈ optionValues ∧
    (handleScan initWorld.ui = .refused ↔ initWorld.ui.image = none) :=
  category_enum_scan_refusal_C9 initWorld Reachable.init

/-- C3: whenever any of image, location or classification is absent,
`handleSubmit` returns early with the one missing field given by the
spec's fixed priority order (image, then location, then classification)
and issues no submission request. -/
theorem submit_missing_priority_C3 (s : ReportIssueState)
    (h : s.image = none ∨ s.location = none ∨ s.aiAnalysis = none) :
    (∃ f, submitOutcome s = .missing f ∧ specPriorityMissing s = some f) ∧
    ∀ r, submitOutcome s ≠ .send r := by
  cases himg : s.image with
  | none =>
    exact ⟨⟨.image, by simp [submitOutcome, himg], by simp [specPriorityMissing, himg]⟩,
      by simp [submitOutcome, himg]⟩
  | some i =>
    cases hloc : s.location with
    | none =>
      exact ⟨⟨.location, by simp [submitOutcome, himg, hloc],
        by simp [specPriorityMissing, himg, hloc]⟩,
        by simp [submitOutcome, himg, hloc]⟩
    | some l =>
      cases hai : s.aiAnalysis with
      | none =>
        exact ⟨⟨.classification, by simp [submitOutcome, himg, hloc, hai],
          by simp [specPriorityMissing, himg, hloc, hai]⟩,
          by simp [submitOutcome, himg, hloc, hai]⟩
      | some a => simp [himg, hloc, hai] at h

/-- Witness for C3: a draft with image and verdict but no location is
refused for the location. -/
theorem submit_missing_priority_C3_witness :
    (∃ f, submitOutcome c3State = .missing f ∧ specPriorityMissing c3State = some f) ∧
    ∀ r, submitOutcome c3State ≠ .send r :=
  submit_missing_priority_C3 c3State (Or.inr (Or.inl rfl))

/-- C4: with a complete draft, `handleSubmit` issues the request whose
record carries image, type, latitude, longitude, address and description;
on a matching verdict it additionally carries `ai_probability` equal to the
verdict's probability together with `ai_severity`, and on a non-matching
verdict it carries `ai_probability=0` — and the submission is still issued. -/
theorem submit_record_fields_C4 (s : ReportIssueState) (i : FileData)
    (l : Coords) (a : AIAnalysis) (hi : s.image = some i)
    (hl : s.location = some l) (ha : s.aiAnalysis = some a) :
    submitOutcome s = .send (buildRecord i s.issueType l s.address s.description a) ∧
    (buildRecord i s.issueType l s.address s.description a).lookup "image"
      = some (.file i) ∧
    (buildRecord i s.issueType l s.address s.description a).lookup "type"
      = some (.str s.issueType) ∧
    (buildRecord i s.issueType l s.address s.description a).lookup "latitude"
      = some (.str (numStr l.lat)) ∧
    (buildRecord i s.issueType l s.address s.description a).lookup "longitude"
      = some (.str (numStr l.lng)) ∧
    (buildRecord i s.issueType l s.address s.description a).lookup "address"
      = some (.str s.address) ∧
    (buildRecord i s.issueType l s.address s.description a).lookup "description"
      = some (.str s.description) ∧
    (a.is_match = true →
      (buildRecord i s.issueType l s.address s.description a).lookup "ai_probability"
        = some (.str (numStr a.probability)) ∧
      (buildRecord i s.issueType l s.address s.description a).lookup "ai_severity"
        = some (.str (sevStr a.severity))) ∧
    (a.is_match = false →
      (buildRecord i s.issueType l s.address s.description a).lookup "ai_probability"
        = some (.str "0")) := by
  refine ⟨by simp [submitOutcome, hi, hl, ha], rfl, rfl, rfl, rfl, rfl, rfl, ?_, ?_⟩
  · intro hm
    constructor <;> (simp only [buildRecord, hm, if_true]; rfl)
  · intro hm
    simp only [buildRecord, hm, if_false]
    rfl

/-- Witness for C4 at the spec's walk-through draft. -/
theorem submit_record_fields_C4_witness :
    submitOutcome c4State
      = .send (buildRecord "img.jpg" c4State.issueType ⟨12.9, 77.6⟩
          c4State.address c4State.description ⟨true, 0.85, some .high⟩) :=
  (submit_record_fields_C4 c4State "img.jpg" ⟨12.9, 77.6⟩
    ⟨true, 0.85, some .high⟩ rfl rfl rfl).1

/-- C10: in the match case `ai_severity` is present, holding the severity
string or the empty string when the optional severity is absent; in the
no-match case the `ai_severity` field is omitted from the record entirely. -/
theorem record_severity_field_C10 (i : FileData) (ty : String) (l : Coords)
    (addr d : String) (a : AIAnalysis) :
    (a.is_match = true →
      (buildRecord i ty l addr d a).lookup "ai_severity"
        = some (.str (sevStr a.severity)) ∧
      (a.severity = none →
        (buildRecord i ty l addr d a).lookup "ai_severity" = some (.str ""))) ∧
    (a.is_match = false →
      (buildRecord i ty l addr d a).lookup "ai_severity" = none) := by
  constructor
  · intro hm
    constructor
    · simp only [buildRecord, hm, if_true]; rfl
    · intro hsev
      simp only [buildRecord, hm, hsev, if_true]; rfl
  · intro hm
    simp only [buildRecord, hm, if_false]; rfl

/-- Witness for C10: a matching verdict with no severity yields the
empty-string `ai_severity`. -/
theorem record_severity_field_C10_witness :
    (buildRecord "img.jpg" "pothole" ⟨1, 2⟩ "addr" "d"
      ⟨true, 0.85, none⟩).lookup "ai_severity" = some (.str "") :=
  ((record_severity_field_C10 "img.jpg" "pothole" ⟨1, 2⟩ "addr" "d"
    ⟨true, 0.85, none⟩).1 rfl).2 rfl

/-- C1: a reachable world in which an image was scanned under category
`drainage`, a verdict was stored, and the category was then changed to
`pothole` — yet the verdict is still present.  The category `onChange`
(line 198) only calls `setIssueType` and never clears `aiAnalysis`, so
changing the category does not invalidate the stored classification. -/
theorem selectCategory_keeps_verdict_C1 :
    Reachable c1World ∧ c1World.ui.issueType = "pothole" ∧
    c1World.ui.aiAnalysis = some c1Verdict ∧ c1World.ui.aiAnalysis ≠ none :=
  ⟨Reachable.step
    (Reachable.step
      (Reachable.step
        (Reachable.step Reachable.init
          (Step.upload initWorld "img.jpg" "blob:1" rfl rfl))
        (Step.scan _ ⟨"img.jpg", "drainage"⟩ rfl rfl rfl rfl (by decide)))
      (Step.classifyOk _ 0 c1Verdict (by decide)))
    (Step.category _ "pothole" (by decide)),
   rfl, rfl, by decide⟩

/-- C5 counterexample: coordinates A then B are selected; B's geocoding
response ("Beta Street") arrives and is applied first, then A's stale
response ("Alpha Street") arrives — and overwrites the newer address, so
the final address reflects A, not B. -/
theorem stale_geocode_overwrites_C5_cex :
    Reachable c5World ∧ c5World.ui.location = some c5B ∧
    (applyGeocodeOk (applyLocation (applyLocation initWorld c5A) c5B)
      0 (some "Beta Street")).ui.address = "Beta Street" ∧
    c5World.ui.address = "Alpha Street" ∧ c5World.ui.address ≠ "Beta Street" :=
  ⟨Reachable.step
    (Reachable.step
      (Reachable.step
        (Reachable.step Reachable.init (Step.selectLoc initWorld c5A))
        (Step.selectLoc _ c5B))
      (Step.geocodeOk _ 0 (some "Beta Street") (by decide)))
    (Step.geocodeOk _ 0 (some "Alpha Street") (by decide)),
   rfl, rfl, rfl, by decide⟩

/-- C5 amended: geocoding responses carry no staleness check — every
arriving response with a display name overwrites `address` regardless of
whether its coordinates still match the current `location` (so the address
reflects the last-arriving response), while `location` itself always keeps
the latest selection. -/
theorem geocode_last_response_wins_C5 (w : World) (i : ℕ) (n : String)
    (hn : n ≠ "") :
    (applyGeocodeOk w i (some n)).ui.address = n ∧
    (applyGeocodeOk w i (some n)).ui.location = w.ui.location := by
  constructor
  · simp [applyGeocodeOk, applyGeocodeResp, respAddress, hn]
  · rfl

/-- Witness for the amended C5. -/
theorem geocode_last_response_wins_C5_witness :
    (applyGeocodeOk initWorld 0 (some "MG Road")).ui.address = "MG Road" :=
  (geocode_last_response_wins_C5 initWorld 0 "MG Road" (by decide)).1

/-- C6: when the submission call fails, the world returns exactly to the
pre-submit world — image, location and classification untouched — and the
very same submission step (same record) is enabled again. -/
theorem submit_failure_preserves_draft_C6 (w : World)
    (r : List (String × FormValue)) (hs : w.ui.isSubmitting = false)
    (hr : submitOutcome w.ui = .send r) :
    applySubmitFail (applySubmit w r) 0 = w ∧
    (applySubmitFail (applySubmit w r) 0).ui.image = w.ui.image ∧
    (applySubmitFail (applySubmit w r) 0).ui.location = w.ui.location ∧
    (applySubmitFail (applySubmit w r) 0).ui.aiAnalysis = w.ui.aiAnalysis ∧
    (applySubmitFail (applySubmit w r) 0).ui.isSubmitting = false ∧
    submitOutcome (applySubmitFail (applySubmit w r) 0).ui = .send r ∧
    Step w (applySubmit w r) := by
  obtain ⟨ui, p1, p2, p3, p4⟩ := w
  obtain ⟨f1, f2, f3, f4, f5, f6, f7, f8, f9, f10⟩ := ui
  change f10 = false at hs
  subst hs
  exact ⟨rfl, rfl, rfl, rfl, rfl, hr, Step.submit _ r rfl hr⟩

/-- Witness for C6 at a complete concrete draft. -/
theorem submit_failure_preserves_draft_C6_witness :
    applySubmitFail (applySubmit c6World c6Record) 0 = c6World ∧
    submitOutcome (applySubmitFail (applySubmit c6World c6Record) 0).ui
      = .send c6Record :=
  ⟨(submit_failure_preserves_draft_C6 c6World c6Record rfl rfl).1,
   (submit_failure_preserves_draft_C6 c6World c6Record rfl rfl).2.2.2.2.2.1⟩

/-- C7: the advisory tag follows the fixed policy (no-match, then the 0.7
threshold separating low-confidence from match), and the threshold affects
neither whether submission is permitted (any verdict suffices, whatever its
contents) nor the outbound record (records of two matching verdicts differ
only in the `ai_probability` value, which is the probability itself, and
records of non-matching verdicts do not depend on the probability at all). -/
theorem classified_tag_policy_C7 :
    (∀ a : AIAnalysis, a.is_match = false → classifiedTag a = .noMatch) ∧
    (∀ a : AIAnalysis, a.is_match = true → a.probability < 0.7 →
      classifiedTag a = .lowConfidence) ∧
    (∀ a : AIAnalysis, a.is_match = true → (0.7 : ℚ) ≤ a.probability →
      classifiedTag a = .confirmedMatch) ∧
    (∀ (s : ReportIssueState) (a a' : AIAnalysis),
      (∃ r, submitOutcome { s with aiAnalysis := some a } = .send r) ↔
      (∃ r, submitOutcome { s with aiAnalysis := some a' } = .send r)) ∧
    (∀ (i : FileData) (ty : String) (l : Coords) (addr d : String)
      (p p' : ℚ) (sev : Option Severity),
      (buildRecord i ty l addr d ⟨true, p, sev⟩).filter
          (fun kv => kv.1 != "ai_probability") =
        (buildRecord i ty l addr d ⟨true, p', sev⟩).filter
          (fun kv => kv.1 != "ai_probability") ∧
      (buildRecord i ty l addr d ⟨true, p, sev⟩).lookup "ai_probability"
        = some (.str (numStr p))) ∧
    (∀ (i : FileData) (ty : String) (l : Coords) (addr d : String)
      (p p' : ℚ) (sev : Option Severity),
      buildRecord i ty l addr d ⟨false, p, sev⟩
        = buildRecord i ty l addr d ⟨false, p', sev⟩) := by
  refine ⟨?_, ?_, ?_, ?_, ?_, ?_⟩
  · intro a hm; simp [classifiedTag, hm]
  · intro a hm hp; simp [classifiedTag, hm, not_le.mpr hp]
  · intro a hm hp; simp [classifiedTag, hm, hp]
  · intro s a a'
    cases himg : s.image <;> cases hloc : s.location <;>
      simp [submitOutcome, himg, hloc]
  · intro i ty l addr d p p' sev
    exact ⟨rfl, rfl⟩
  · intro i ty l addr d p p' sev
    rfl

/-- Witness for C7 at the three tag cases. -/
theorem classified_tag_policy_C7_witness :
    classifiedTag ⟨false, 0.2, none⟩ = .noMatch ∧
    classifiedTag ⟨true, 0.5, none⟩ = .lowConfidence ∧
    classifiedTag ⟨true, 0.7, none⟩ = .confirmedMatch :=
  ⟨classified_tag_policy_C7.1 _ rfl,
   classified_tag_policy_C7.2.1 _ rfl (by norm_num),
   classified_tag_policy_C7.2.2.1 _ rfl (by norm_num)⟩

/-- C8 counterexample: after selecting a location, the geocoding call
fails with a network error; the catch (line 116) sets `address` to the
empty string, not to the "Address not found" sentinel the claim requires
for every failure mode. -/
theorem geocode_network_failure_blank_C8_cex :
    Reachable c8World ∧ c8World.ui.address = "" ∧
    c8World.ui.address ≠ "Address not found" ∧
    c8World.ui.location = some ⟨12.9, 77.6⟩ :=
  ⟨Reachable.step
    (Reachable.step Reachable.init (Step.selectLoc initWorld ⟨12.9, 77.6⟩))
    (Step.geocodeFail _ 0 (by decide)),
   rfl, by decide, rfl⟩

/-- C8 amended: only a response without a usable `display_name` yields the
"Address not found" sentinel; a network failure clears `address` to the
empty string instead.  In both cases the selected coordinates are kept in
`location`, and a present location is never the missing field a submission
is refused for. -/
theorem geocode_failure_handling_C8 :
    (∀ s : ReportIssueState, (applyGeocodeResp s none).address = "Address not found" ∧
      (applyGeocodeResp s (some "")).address = "Address not found") ∧
    (∀ s : ReportIssueState, (geocodeFail s).address = "") ∧
    (∀ (s : ReportIssueState) (dn : Option String),
      (applyGeocodeResp s dn).location = s.location) ∧
    (∀ s : ReportIssueState, (geocodeFail s).location = s.location) ∧
    (∀ (s : ReportIssueState) (l : Coords), s.location = some l →
      submitOutcome s ≠ .missing .location) := by
  refine ⟨fun s => ⟨rfl, rfl⟩, fun s => rfl, fun s dn => rfl, fun s => rfl, ?_⟩
  intro s l hl
  cases himg : s.image with
  | none => simp [submitOutcome, himg]
  | some i =>
    cases hai : s.aiAnalysis with
    | none => simp [submitOutcome, himg, hl, hai]
    | some a => simp [submitOutcome, himg, hl, hai]

/-- Witness for the amended C8. -/
theorem geocode_failure_handling_C8_witness :
    (applyGeocodeResp initState none).address = "Address not found" ∧
    submitOutcome c8State ≠ .missing .location :=
  ⟨(geocode_failure_handling_C8.1 initState).1,
   geocode_failure_handling_C8.2.2.2.2 c8State ⟨1, 2⟩ rfl⟩

end CivicAI
